import Mathlib

/-!
# BPSK_Mod: the streaming BPSK modulator component

A shallow embedding of `src/BPSK_Mod/cpp/BPSK_Mod.cpp` (constructor, destructor,
`serviceFunction`, `createModem`) as state-passing functions, followed by the
properties of the service step, of teardown and of runs of service invocations.

Conventions of the embedding.

* The component's members are the record `BPSK_Mod_i`.  Every call the code makes on
  an external collaborator (the liquid modem library, the output port) is appended to
  a trace of `Event`s, in program order; the pair (members, trace) is `Sys`.
* The external modem library and the framework helpers are not part of the sources;
  they are the parameter `Deps`.
* `double` and `float` values are only stored and copied by this code, never computed
  with; they are carried as rationals.
* The data model is LP64, little-endian: `unsigned int` has 32 bits and `unsigned long`
  has 64.  The packet buffer holds 32-bit symbol indices; the pointer cast of line 174
  makes the code read it as a vector of `unsigned long`, so one element of `preMod`
  covers two consecutive symbols and a trailing odd symbol belongs to no element
  (`reinterpretULong`).  `unsigned int size` (line 178) keeps the low 32 bits of
  `preMod->size()`.  The cast of line 192 shows every complex sample as its real part
  followed by its imaginary part, as the comment of lines 97-105 describes.
* `delete input` (line 194) is memory management and leaves no mark on the state.
-/

set_option linter.dupNamespace false

namespace BPSK

/-! ## Data model -/

/-- Modelled from the spec: the timestamp carried by a packet.  Its type is declared in
the BULKIO framework headers, which are not part of the sources; the code only copies
it from the input packet to `pushPacket`. -/
structure PrecisionUTCTime where
  tcmode : Int
  tcstatus : Int
  toff : Rat
  twsec : Rat
  tfsec : Rat
  deriving DecidableEq, Repr

/-- Modelled from the spec: the signal descriptor (SRI): sample spacing `xdelta`,
complex-mode flag `mode`, stream identifier `streamID`, and the auxiliary fields this
code never reads.  Its type is declared in the BULKIO framework headers, which are not
part of the sources. -/
structure StreamSRI where
  hversion : Int
  xstart : Rat
  xdelta : Rat
  xunits : Int
  subsize : Int
  ystart : Rat
  ydelta : Rat
  yunits : Int
  mode : Int
  streamID : String
  blocking : Bool
  keywords : List (String × String)
  deriving DecidableEq, Repr

/-- Modelled from the spec: one received packet (`bulkio::InULongPort::dataTransfer`):
the symbol indices (`Packet<uint32>`: every element of `dataBuffer` is one 32-bit
unsigned value), timestamp, end-of-stream flag, stream identifier, descriptor and
descriptor-changed flag.  Its type is declared in the BULKIO framework headers, which
are not part of the sources. -/
structure dataTransfer where
  dataBuffer : List Nat
  T : PrecisionUTCTime
  EOS : Bool
  streamID : String
  SRI : StreamSRI
  sriChanged : Bool
  deriving DecidableEq, Repr

/-- One output element, `std::complex<float>`. -/
structure Complex32 where
  re : Rat
  im : Rat
  deriving DecidableEq, Repr

/-- The value `std::complex<float>()` that `output.resize(size)` fills in. -/
def Complex32.zero : Complex32 := { re := 0, im := 0 }

/-- A live modem object of the liquid library (a non-null `modem` pointer). -/
abbrev Handle := Nat

/-- A value of liquid's `modulation_scheme` enumeration. -/
abbrev modulation_scheme := Nat

/-- The calls the component makes on its external collaborators. -/
inductive Event where
  | modem_create (scheme : modulation_scheme) (result : Handle)
  | modem_destroy (q : Handle)
  | modem_modulate (q : Option Handle) (symbol : Nat)
  | pushSRI (sri : StreamSRI)
  | pushPacket (data : List Rat) (T : PrecisionUTCTime) (EOS : Bool) (streamID : String)
  deriving DecidableEq, Repr

/-- Modelled from the spec: what the sources use but do not define.
`modem_create` returns the handle the library hands out, which may depend on everything
that happened before (the trace); creation is taken as infallible, so the result is a
live handle.  `modem_modulate q symbol` is the sample the library writes through the
output pointer, a function of handle and symbol; the conversion of the `unsigned long`
argument to the library's parameter type is part of this call.  The library's
interface does not define the call on the NULL handle: the parameter fixes some value
for it, and a statement about a step that modulates on the NULL handle holds provided
that call returns.  `sri_create` is
`bulkio::sri::create`, and `LIQUID_MODEM_BPSK` the enumeration constant. -/
structure Deps where
  modem_create : modulation_scheme → List Event → Handle
  modem_modulate : Option Handle → Nat → Complex32
  sri_create : String → StreamSRI
  LIQUID_MODEM_BPSK : modulation_scheme

/-- The members of the component class that the code of this file touches;
`bpsk_mod = none` is the NULL pointer. -/
structure BPSK_Mod_i where
  bpsk_mod : Option Handle
  m_delta : Rat
  m_sriOut : StreamSRI
  deriving DecidableEq, Repr

/-- The component together with the calls it has made so far. -/
structure Sys where
  self : BPSK_Mod_i
  trace : List Event
  deriving DecidableEq, Repr

/-- Modelled from the spec: the two outcomes `serviceFunction` reports to the service
thread ("no progress" and "progress made"); the framework header defining the
constants is not part of the sources. -/
inductive ReturnCode where
  | NOOP
  | NORMAL
  deriving DecidableEq, Repr

/-- The exception `std::vector::at` raises on an index past the end. -/
inductive Exn where
  | out_of_range
  deriving DecidableEq, Repr

/-! ## The code -/

/-- Lines 14-20: the constructor. -/
def BPSK_Mod_i.BPSK_Mod_i (dp : Deps) : BPSK_Mod_i :=
  { bpsk_mod := none
    m_delta := 0
    m_sriOut := dp.sri_create "BPSK_OUT" }

/-- The freshly constructed component: nothing has been called yet. -/
def fresh (dp : Deps) : Sys :=
  { self := BPSK_Mod_i.BPSK_Mod_i dp, trace := [] }

/-- Lines 22-28: the body of the destructor. -/
def destructor (s : Sys) : Sys :=
  match s.self.bpsk_mod with
  | some q =>
    { self := { s.self with bpsk_mod := none }
      trace := s.trace ++ [Event.modem_destroy q] }
  | none => s

/-- Lines 198-205: `createModem`. -/
def createModem (dp : Deps) (s : Sys) : Sys :=
  let s1 : Sys :=
    match s.self.bpsk_mod with
    | some q =>
      { self := { s.self with bpsk_mod := none }
        trace := s.trace ++ [Event.modem_destroy q] }
    | none => s
  let q := dp.modem_create dp.LIQUID_MODEM_BPSK s1.trace
  { self := { s1.self with bpsk_mod := some q }
    trace := s1.trace ++ [Event.modem_create dp.LIQUID_MODEM_BPSK q] }

/-- Lines 189-191: the modulation loop.  The first numeric argument is the number of
iterations still to run (`size - i`), the second is `i`. -/
def modulateLoop (dp : Deps) (bpsk_mod : Option Handle) (preMod : List Nat) :
    Nat → Nat → List Complex32 → List Event → Except Exn (List Complex32 × List Event)
  | 0, _, output, trace => Except.ok (output, trace)
  | n + 1, i, output, trace =>
    match preMod[i]? with
    | none => Except.error Exn.out_of_range
    | some symbol =>
      modulateLoop dp bpsk_mod preMod n (i + 1)
        (output.set i (dp.modem_modulate bpsk_mod symbol))
        (trace ++ [Event.modem_modulate bpsk_mod symbol])

/-- Line 192: the complex output seen as a sequence of floats. -/
def interleave : List Complex32 → List Rat
  | [] => []
  | z :: rest => z.re :: z.im :: interleave rest

/-- Line 174: the buffer of 32-bit symbols read through a pointer to a vector of
`unsigned long`.  Each 64-bit element is made of two consecutive symbols, the first in
the low half; the element count is the byte length divided by 8, so a last unpaired
symbol is not part of the view. -/
def reinterpretULong : List Nat → List Nat
  | a :: b :: rest => (a % 2 ^ 32 + 2 ^ 32 * (b % 2 ^ 32)) :: reinterpretULong rest
  | _ => []

/-- Lines 165-196: `serviceFunction`; `getPacket` is what the blocking receive of
line 168 returned (`none` is the null pointer). -/
def serviceFunction (dp : Deps) (getPacket : Option dataTransfer) (s : Sys) :
    Except Exn (ReturnCode × Sys) :=
  match getPacket with
  | none => Except.ok (ReturnCode.NOOP, s)
  | some input =>
    let preMod := reinterpretULong input.dataBuffer
    let size := preMod.length % 2 ^ 32
    let output := List.replicate size Complex32.zero
    let s1 : Sys :=
      if input.sriChanged then
        let s2 := createModem dp
          { self := { s.self with
                        m_delta := input.SRI.xdelta
                        m_sriOut := { input.SRI with mode := 1 } }
            trace := s.trace }
        { s2 with trace := s2.trace ++ [Event.pushSRI s2.self.m_sriOut] }
      else s
    match modulateLoop dp s1.self.bpsk_mod preMod size 0 output s1.trace with
    | Except.error e => Except.error e
    | Except.ok (output1, trace1) =>
      Except.ok (ReturnCode.NORMAL,
        { self := s1.self
          trace := trace1 ++
            [Event.pushPacket (interleave output1) input.T input.EOS input.streamID] })

/-- The service thread: one `serviceFunction` call per element of `inputs`, each
element being what the receive returned in that call. -/
def run (dp : Deps) : List (Option dataTransfer) → Sys → Except Exn Sys
  | [], s => Except.ok s
  | getPacket :: rest, s =>
    match serviceFunction dp getPacket s with
    | Except.error e => Except.error e
    | Except.ok (_, s1) => run dp rest s1

/-- A concrete environment for evaluating the definitions: handles are numbered by the
length of the trace at creation, even symbols map to +1 and odd symbols to -1. -/
def sampleDeps : Deps :=
  { modem_create := fun _ trace => trace.length
    modem_modulate := fun _ symbol =>
      if symbol % 2 = 0 then { re := 1, im := 0 } else { re := -1, im := 0 }
    sri_create := fun streamID =>
      { hversion := 1, xstart := 0, xdelta := 1, xunits := 1, subsize := 0, ystart := 0,
        ydelta := 0, yunits := 0, mode := 0, streamID := streamID, blocking := false,
        keywords := [] }
    LIQUID_MODEM_BPSK := 40 }

/-- A concrete timestamp. -/
def sampleTime : PrecisionUTCTime :=
  { tcmode := 1, tcstatus := 1, toff := 0, twsec := 100, tfsec := 0 }

/-- A concrete packet of stream "s1" with the given symbols and descriptor-changed
flag; its descriptor is real-valued (mode 0). -/
def samplePacket (symbols : List Nat) (sriChanged : Bool) : dataTransfer :=
  { dataBuffer := symbols
    T := sampleTime
    EOS := false
    streamID := "s1"
    SRI := { sampleDeps.sri_create "s1" with xdelta := 2 }
    sriChanged := sriChanged }

/-! ## Observations on traces -/

/-- The buffers of the `pushPacket` calls of a trace, in order. -/
def emittedBuffers : List Event → List (List Rat)
  | [] => []
  | Event.pushPacket data _ _ _ :: rest => data :: emittedBuffers rest
  | _ :: rest => emittedBuffers rest

/-- The timestamp, end-of-stream flag and stream identifier of the `pushPacket` calls
of a trace, in order. -/
def emittedMetadata : List Event → List (PrecisionUTCTime × Bool × String)
  | [] => []
  | Event.pushPacket _ T EOS streamID :: rest => (T, EOS, streamID) :: emittedMetadata rest
  | _ :: rest => emittedMetadata rest

/-- The descriptors of the `pushSRI` calls of a trace, in order. -/
def announced : List Event → List StreamSRI
  | [] => []
  | Event.pushSRI sri :: rest => sri :: announced rest
  | _ :: rest => announced rest

/-- The `modem_modulate` calls of a trace, in order. -/
def modulateCalls : List Event → List (Option Handle × Nat)
  | [] => []
  | Event.modem_modulate q symbol :: rest => (q, symbol) :: modulateCalls rest
  | _ :: rest => modulateCalls rest

/-- The number of `modem_create` calls in a trace. -/
def creates : List Event → Nat
  | [] => 0
  | Event.modem_create _ _ :: rest => creates rest + 1
  | _ :: rest => creates rest

/-- The number of `modem_destroy` calls in a trace. -/
def destroys : List Event → Nat
  | [] => 0
  | Event.modem_destroy _ :: rest => destroys rest + 1
  | _ :: rest => destroys rest

/-- The complex sample at index `i` of a buffer of interleaved floats. -/
def sampleAt (data : List Rat) (i : Nat) : Option Complex32 :=
  match data[2 * i]?, data[2 * i + 1]? with
  | some re, some im => some { re := re, im := im }
  | _, _ => none

/-- Whether a `pushSRI` call comes before the first `pushPacket` call of a trace
(true for a trace without `pushPacket`). -/
def announcedBeforeFirstPacket : List Event → Bool
  | [] => true
  | Event.pushSRI _ :: _ => true
  | Event.pushPacket _ _ _ _ :: _ => false
  | _ :: rest => announcedBeforeFirstPacket rest

/-- The events a service step added: the trace after it, without the trace before. -/
def stepEvents (before after : Sys) : List Event :=
  after.trace.drop before.trace.length

/-- The state reached at line 188, after the descriptor block of lines 181-187. -/
def afterSriBlock (dp : Deps) (input : dataTransfer) (s : Sys) : Sys :=
  if input.sriChanged then
    let s2 := createModem dp
      { self := { s.self with
                    m_delta := input.SRI.xdelta
                    m_sriOut := { input.SRI with mode := 1 } }
        trace := s.trace }
    { s2 with trace := s2.trace ++ [Event.pushSRI s2.self.m_sriOut] }
  else s

/-- The events of the rebuild in `createModem`: destroy the live handle, if any, then
create. -/
def rebuildEvents (dp : Deps) (s : Sys) : List Event :=
  match s.self.bpsk_mod with
  | some q =>
    [Event.modem_destroy q,
     Event.modem_create dp.LIQUID_MODEM_BPSK
       (dp.modem_create dp.LIQUID_MODEM_BPSK (s.trace ++ [Event.modem_destroy q]))]
  | none =>
    [Event.modem_create dp.LIQUID_MODEM_BPSK (dp.modem_create dp.LIQUID_MODEM_BPSK s.trace)]

/-! ## Closed forms used by the proofs -/

/-- The handle `createModem` obtains from the library. -/
def createdHandle (dp : Deps) (s : Sys) : Handle :=
  match s.self.bpsk_mod with
  | some q => dp.modem_create dp.LIQUID_MODEM_BPSK (s.trace ++ [Event.modem_destroy q])
  | none => dp.modem_create dp.LIQUID_MODEM_BPSK s.trace

/-- The elements the loop of lines 189-191 passes to `modem_modulate`: the first `size`
elements of `preMod`. -/
def loopSymbols (input : dataTransfer) : List Nat :=
  (reinterpretULong input.dataBuffer).take
    ((reinterpretULong input.dataBuffer).length % 2 ^ 32)

/-- The events of a service step on a packet, given the handle the loop uses: the
descriptor block's events, one `modem_modulate` per element the loop visits, one
`pushPacket`. -/
def packetEvents (dp : Deps) (input : dataTransfer) (s : Sys) : List Event :=
  (if input.sriChanged then
      rebuildEvents dp s ++ [Event.pushSRI { input.SRI with mode := 1 }]
    else []) ++
    ((loopSymbols input).map
        (Event.modem_modulate (afterSriBlock dp input s).self.bpsk_mod) ++
      [Event.pushPacket
        (interleave ((loopSymbols input).map
          (dp.modem_modulate (afterSriBlock dp input s).self.bpsk_mod)))
        input.T input.EOS input.streamID])

/-- The state a service step leaves: unchanged without a packet, otherwise the members
of line 188 and the trace extended by the events of the step. -/
def stepSys (dp : Deps) (getPacket : Option dataTransfer) (s : Sys) : Sys :=
  match getPacket with
  | none => s
  | some input =>
    { self := (afterSriBlock dp input s).self
      trace := s.trace ++ packetEvents dp input s }

/-- The state a run of service steps leaves. -/
def runSys (dp : Deps) : List (Option dataTransfer) → Sys → Sys
  | [], s => s
  | getPacket :: rest, s => runSys dp rest (stepSys dp getPacket s)

/-- The invariant of a run: at every point of the trace the creates exceed the destroys
by 0 or 1, and at its end by 1 exactly when a handle is live. -/
def HandleInvariant (s : Sys) : Prop :=
  (∀ n : Nat, destroys (s.trace.take n) ≤ creates (s.trace.take n) ∧
    creates (s.trace.take n) ≤ destroys (s.trace.take n) + 1) ∧
  creates s.trace = destroys s.trace + (if s.self.bpsk_mod.isSome then 1 else 0)

/-- Whether the receive returned a packet with the descriptor-changed flag set. -/
def flaggedPacket (getPacket : Option dataTransfer) : Bool :=
  match getPacket with
  | some input => input.sriChanged
  | none => false

/-- The first packet a run receives, if any. -/
def firstPacket : List (Option dataTransfer) → Option dataTransfer
  | [] => none
  | some input :: _ => some input
  | none :: rest => firstPacket rest

/-! ## Auxiliary lemmas -/

theorem modulateLoop_eq (dp : Deps) (q : Option Handle) (preMod : List Nat) :
    ∀ (n i : Nat) (output : List Complex32) (trace : List Event),
      i + n ≤ preMod.length → output.length = i + n →
      modulateLoop dp q preMod n i output trace =
        Except.ok (output.take i ++ ((preMod.drop i).take n).map (dp.modem_modulate q),
          trace ++ ((preMod.drop i).take n).map (Event.modem_modulate q)) := by
  intro n
  induction n with
  | zero =>
    intro i output trace _ hlen
    have hle : output.length ≤ i := by omega
    simp [modulateLoop, List.take_of_length_le hle]
  | succ n ih =>
    intro i output trace hi hlen
    have hlt : i < preMod.length := by omega
    have hget : preMod[i]? = some preMod[i] := List.getElem?_eq_getElem hlt
    have hdrop : preMod.drop i = preMod[i] :: preMod.drop (i + 1) :=
      List.drop_eq_getElem_cons hlt
    have hlt2 : i < output.length := by omega
    simp only [modulateLoop, hget]
    rw [ih (i + 1) _ _ (by omega) (by simp; omega), hdrop]
    have htake : (output.set i (dp.modem_modulate q preMod[i])).take (i + 1) =
        output.take i ++ [dp.modem_modulate q preMod[i]] := by
      rw [List.take_succ, List.set_take, List.set_eq_of_length_le (by simp)]
      simp [List.getElem?_set, hlt2]
    rw [htake]
    simp only [List.take_succ_cons, List.map_cons, List.append_assoc, List.singleton_append]

theorem serviceFunction_some (dp : Deps) (input : dataTransfer) (s : Sys) :
    serviceFunction dp (some input) s =
      Except.ok (ReturnCode.NORMAL,
        { self := (afterSriBlock dp input s).self
          trace := (afterSriBlock dp input s).trace ++
            (loopSymbols input).map
              (Event.modem_modulate (afterSriBlock dp input s).self.bpsk_mod) ++
            [Event.pushPacket
              (interleave ((loopSymbols input).map
                (dp.modem_modulate (afterSriBlock dp input s).self.bpsk_mod)))
              input.T input.EOS input.streamID] }) := by
  have h := modulateLoop_eq dp (afterSriBlock dp input s).self.bpsk_mod
    (reinterpretULong input.dataBuffer)
    ((reinterpretULong input.dataBuffer).length % 2 ^ 32) 0
    (List.replicate ((reinterpretULong input.dataBuffer).length % 2 ^ 32) Complex32.zero)
    (afterSriBlock dp input s).trace
    (by rw [Nat.zero_add]; exact Nat.mod_le _ _) (by simp)
  simp only [List.take_zero, List.drop_zero, List.nil_append] at h
  simp only [serviceFunction]
  show (match modulateLoop dp (afterSriBlock dp input s).self.bpsk_mod
      (reinterpretULong input.dataBuffer)
      ((reinterpretULong input.dataBuffer).length % 2 ^ 32) 0
      (List.replicate ((reinterpretULong input.dataBuffer).length % 2 ^ 32) Complex32.zero)
      (afterSriBlock dp input s).trace with
    | Except.error e => Except.error e
    | Except.ok (output1, trace1) => _) = _
  rw [h]
  rfl

theorem emittedBuffers_append (a b : List Event) :
    emittedBuffers (a ++ b) = emittedBuffers a ++ emittedBuffers b := by
  induction a with
  | nil => rfl
  | cons e a ih => cases e <;> simp [emittedBuffers, ih]

theorem emittedMetadata_append (a b : List Event) :
    emittedMetadata (a ++ b) = emittedMetadata a ++ emittedMetadata b := by
  induction a with
  | nil => rfl
  | cons e a ih => cases e <;> simp [emittedMetadata, ih]

theorem announced_append (a b : List Event) :
    announced (a ++ b) = announced a ++ announced b := by
  induction a with
  | nil => rfl
  | cons e a ih => cases e <;> simp [announced, ih]

theorem modulateCalls_append (a b : List Event) :
    modulateCalls (a ++ b) = modulateCalls a ++ modulateCalls b := by
  induction a with
  | nil => rfl
  | cons e a ih => cases e <;> simp [modulateCalls, ih]

theorem creates_append (a b : List Event) : creates (a ++ b) = creates a + creates b := by
  induction a with
  | nil => simp [creates]
  | cons e a ih =>
    cases e <;> simp [creates, ih]
    omega

theorem destroys_append (a b : List Event) : destroys (a ++ b) = destroys a + destroys b := by
  induction a with
  | nil => simp [destroys]
  | cons e a ih =>
    cases e <;> simp [destroys, ih]
    omega

theorem emittedBuffers_modulate (q : Option Handle) (l : List Nat) :
    emittedBuffers (l.map (Event.modem_modulate q)) = [] := by
  induction l with
  | nil => rfl
  | cons x l ih => simpa [emittedBuffers] using ih

theorem emittedMetadata_modulate (q : Option Handle) (l : List Nat) :
    emittedMetadata (l.map (Event.modem_modulate q)) = [] := by
  induction l with
  | nil => rfl
  | cons x l ih => simpa [emittedMetadata] using ih

theorem announced_modulate (q : Option Handle) (l : List Nat) :
    announced (l.map (Event.modem_modulate q)) = [] := by
  induction l with
  | nil => rfl
  | cons x l ih => simpa [announced] using ih

theorem creates_modulate (q : Option Handle) (l : List Nat) :
    creates (l.map (Event.modem_modulate q)) = 0 := by
  induction l with
  | nil => rfl
  | cons x l ih => simpa [creates] using ih

theorem destroys_modulate (q : Option Handle) (l : List Nat) :
    destroys (l.map (Event.modem_modulate q)) = 0 := by
  induction l with
  | nil => rfl
  | cons x l ih => simpa [destroys] using ih

theorem modulateCalls_modulate (q : Option Handle) (l : List Nat) :
    modulateCalls (l.map (Event.modem_modulate q)) = l.map (fun symbol => (q, symbol)) := by
  induction l with
  | nil => rfl
  | cons x l ih => simpa [modulateCalls] using ih

theorem stepEvents_append (s : Sys) (self : BPSK_Mod_i) (evs : List Event) :
    stepEvents s { self := self, trace := s.trace ++ evs } = evs := by
  simp [stepEvents]

theorem createModem_eq (dp : Deps) (s : Sys) :
    createModem dp s =
      { self := { s.self with bpsk_mod := some (createdHandle dp s) }
        trace := s.trace ++ rebuildEvents dp s } := by
  unfold createModem rebuildEvents createdHandle
  cases h : s.self.bpsk_mod <;> simp

theorem afterSriBlock_unchanged (dp : Deps) (input : dataTransfer) (s : Sys)
    (h : input.sriChanged = false) : afterSriBlock dp input s = s := by
  simp [afterSriBlock, h]

theorem afterSriBlock_changed (dp : Deps) (input : dataTransfer) (s : Sys)
    (h : input.sriChanged = true) :
    afterSriBlock dp input s =
      { self :=
          { bpsk_mod := some (createdHandle dp s)
            m_delta := input.SRI.xdelta
            m_sriOut := { input.SRI with mode := 1 } }
        trace := s.trace ++ (rebuildEvents dp s ++ [Event.pushSRI { input.SRI with mode := 1 }]) } := by
  simp [afterSriBlock, h, createModem_eq, rebuildEvents, createdHandle]

theorem rebuildEvents_counts (dp : Deps) (s : Sys) :
    creates (rebuildEvents dp s) = 1 ∧
      destroys (rebuildEvents dp s) = (if s.self.bpsk_mod.isSome then 1 else 0) ∧
      modulateCalls (rebuildEvents dp s) = [] ∧
      announced (rebuildEvents dp s) = [] ∧
      emittedBuffers (rebuildEvents dp s) = [] ∧
      emittedMetadata (rebuildEvents dp s) = [] := by
  unfold rebuildEvents
  cases s.self.bpsk_mod <;>
    simp [creates, destroys, modulateCalls, announced, emittedBuffers, emittedMetadata]

theorem serviceFunction_packet (dp : Deps) (input : dataTransfer) (s : Sys) :
    serviceFunction dp (some input) s =
      Except.ok (ReturnCode.NORMAL,
        { self := (afterSriBlock dp input s).self
          trace := s.trace ++ packetEvents dp input s }) := by
  rw [serviceFunction_some]
  unfold packetEvents
  cases h : input.sriChanged
  · simp [afterSriBlock_unchanged dp input s h]
  · simp [afterSriBlock_changed dp input s h]

theorem afterSriBlock_handle (dp : Deps) (input : dataTransfer) (s : Sys) :
    (afterSriBlock dp input s).self.bpsk_mod =
      if input.sriChanged then some (createdHandle dp s) else s.self.bpsk_mod := by
  cases h : input.sriChanged
  · simp [afterSriBlock_unchanged dp input s h]
  · simp [afterSriBlock_changed dp input s h]

theorem packetEvents_emittedBuffers (dp : Deps) (input : dataTransfer) (s : Sys) :
    emittedBuffers (packetEvents dp input s) =
      [interleave ((loopSymbols input).map
        (dp.modem_modulate (afterSriBlock dp input s).self.bpsk_mod))] := by
  unfold packetEvents
  cases input.sriChanged <;>
    simp [emittedBuffers_append, emittedBuffers_modulate, emittedBuffers,
      (rebuildEvents_counts dp s).2.2.2.2.1]

theorem packetEvents_emittedMetadata (dp : Deps) (input : dataTransfer) (s : Sys) :
    emittedMetadata (packetEvents dp input s) = [(input.T, input.EOS, input.streamID)] := by
  unfold packetEvents
  cases input.sriChanged <;>
    simp [emittedMetadata_append, emittedMetadata_modulate, emittedMetadata,
      (rebuildEvents_counts dp s).2.2.2.2.2]

theorem packetEvents_announced (dp : Deps) (input : dataTransfer) (s : Sys) :
    announced (packetEvents dp input s) =
      if input.sriChanged then [{ input.SRI with mode := 1 }] else [] := by
  unfold packetEvents
  cases input.sriChanged <;>
    simp [announced_append, announced_modulate, announced,
      (rebuildEvents_counts dp s).2.2.2.1]

theorem packetEvents_modulateCalls (dp : Deps) (input : dataTransfer) (s : Sys) :
    modulateCalls (packetEvents dp input s) =
      (loopSymbols input).map
        (fun symbol => ((afterSriBlock dp input s).self.bpsk_mod, symbol)) := by
  unfold packetEvents
  cases input.sriChanged <;>
    simp [modulateCalls_append, modulateCalls_modulate, modulateCalls,
      (rebuildEvents_counts dp s).2.2.1]

theorem packetEvents_creates (dp : Deps) (input : dataTransfer) (s : Sys) :
    creates (packetEvents dp input s) = if input.sriChanged then 1 else 0 := by
  unfold packetEvents
  cases input.sriChanged <;>
    simp [creates_append, creates_modulate, creates, (rebuildEvents_counts dp s).1]

theorem packetEvents_destroys (dp : Deps) (input : dataTransfer) (s : Sys) :
    destroys (packetEvents dp input s) =
      if input.sriChanged && s.self.bpsk_mod.isSome then 1 else 0 := by
  unfold packetEvents
  cases input.sriChanged <;>
    simp [destroys_append, destroys_modulate, destroys, (rebuildEvents_counts dp s).2.1]

theorem run_eq (dp : Deps) (inputs : List (Option dataTransfer)) :
    ∀ s : Sys, run dp inputs s = Except.ok (runSys dp inputs s) := by
  induction inputs with
  | nil => intro s; rfl
  | cons g rest ih =>
    intro s
    cases g with
    | none => simpa [run, runSys, stepSys, serviceFunction] using ih s
    | some input =>
      simp only [run, runSys, stepSys, serviceFunction_packet]
      exact ih _

/-! ## The service step -/

/-- C1, the code at the failing input: from the freshly constructed component, the step
on the three-symbol packet [0, 1, 0] with the descriptor-changed flag set makes one
`pushPacket` call whose buffer holds one complex sample, two floats, where the packet
has three symbols: the view of line 174 has one element, the word made of the first
two symbols, and the third symbol is never read. -/
theorem serviceFunction_three_symbols_one_sample (dp : Deps) :
    ∃ s1 : Sys,
      serviceFunction dp (some (samplePacket [0, 1, 0] true)) (fresh dp) =
        Except.ok (ReturnCode.NORMAL, s1) ∧
      (samplePacket [0, 1, 0] true).dataBuffer.length = 3 ∧
      s1.self.bpsk_mod = some (dp.modem_create dp.LIQUID_MODEM_BPSK []) ∧
      modulateCalls (stepEvents (fresh dp) s1) =
        [(some (dp.modem_create dp.LIQUID_MODEM_BPSK []), 4294967296)] ∧
      emittedBuffers (stepEvents (fresh dp) s1) =
        [interleave
          [dp.modem_modulate (some (dp.modem_create dp.LIQUID_MODEM_BPSK [])) 4294967296]] ∧
      (emittedBuffers (stepEvents (fresh dp) s1)).map List.length = [2] :=
  ⟨_, serviceFunction_packet dp _ _, rfl, rfl, rfl, rfl, rfl⟩

/-- C2, the code at the failing input: from the freshly constructed component, the step
on the four-symbol packet [0, 1, 0, 1] with the flag set calls `modem_modulate` twice,
each time with the 64-bit word made of a pair of symbols; the emitted buffer has a
sample at indices 0 and 1 only, sample 1 comes from the word of symbols 2 and 3 and
not from symbol 1, and with symbol 2 replaced by 1 the call behind sample 1 gets a
different argument. -/
theorem serviceFunction_modulates_symbol_pairs (dp : Deps) :
    ∃ (s1 s2 : Sys) (data : List Rat),
      serviceFunction dp (some (samplePacket [0, 1, 0, 1] true)) (fresh dp) =
        Except.ok (ReturnCode.NORMAL, s1) ∧
      modulateCalls (stepEvents (fresh dp) s1) =
        [(some (dp.modem_create dp.LIQUID_MODEM_BPSK []), 4294967296),
         (some (dp.modem_create dp.LIQUID_MODEM_BPSK []), 4294967296)] ∧
      emittedBuffers (stepEvents (fresh dp) s1) = [data] ∧
      sampleAt data 1 =
        some (dp.modem_modulate (some (dp.modem_create dp.LIQUID_MODEM_BPSK [])) 4294967296) ∧
      sampleAt data 2 = none ∧
      sampleAt data 3 = none ∧
      serviceFunction dp (some (samplePacket [0, 1, 1, 1] true)) (fresh dp) =
        Except.ok (ReturnCode.NORMAL, s2) ∧
      modulateCalls (stepEvents (fresh dp) s2) =
        [(some (dp.modem_create dp.LIQUID_MODEM_BPSK []), 4294967296),
         (some (dp.modem_create dp.LIQUID_MODEM_BPSK []), 4294967297)] :=
  ⟨_, _, _, serviceFunction_packet dp _ _, rfl, rfl, rfl, rfl, rfl,
    serviceFunction_packet dp _ _, rfl⟩

/-- C3: for every received packet, every prior state (whatever `m_sriOut` holds) and
either value of the descriptor-changed flag, the step makes one `pushPacket` call and
its timestamp, end-of-stream flag and stream identifier are the input packet's `T`,
`EOS` and `streamID`. -/
theorem serviceFunction_metadata_passthrough (dp : Deps) (input : dataTransfer) (s : Sys) :
    ∃ s1 : Sys,
      serviceFunction dp (some input) s = Except.ok (ReturnCode.NORMAL, s1) ∧
      emittedMetadata (stepEvents s s1) = [(input.T, input.EOS, input.streamID)] := by
  refine ⟨_, serviceFunction_packet dp input s, ?_⟩
  rw [stepEvents_append, packetEvents_emittedMetadata]

/-- C4: in a service step on a received packet the `pushSRI` calls are: exactly one,
carrying the input descriptor with `mode` set to 1 (so with the input's `xdelta` and
`streamID`, whatever the input's `mode`), when the descriptor-changed flag is set, and
none when it is unset; `m_sriOut` and `m_delta` hold that descriptor and its `xdelta`
after a flagged packet and are unchanged after an unflagged one. -/
theorem serviceFunction_descriptor (dp : Deps) (input : dataTransfer) (s : Sys) :
    ∃ s1 : Sys,
      serviceFunction dp (some input) s = Except.ok (ReturnCode.NORMAL, s1) ∧
      announced (stepEvents s s1) =
        (if input.sriChanged then [{ input.SRI with mode := 1 }] else []) ∧
      (announced (stepEvents s s1) ≠ [] ↔ input.sriChanged = true) ∧
      (announced (stepEvents s s1)).length ≤ 1 ∧
      (announced (stepEvents s s1)).all
        (fun sri => sri.xdelta = input.SRI.xdelta ∧ sri.streamID = input.SRI.streamID ∧
          sri.mode = 1) = true ∧
      s1.self.m_sriOut =
        (if input.sriChanged then { input.SRI with mode := 1 } else s.self.m_sriOut) ∧
      s1.self.m_delta = (if input.sriChanged then input.SRI.xdelta else s.self.m_delta) := by
  refine ⟨_, serviceFunction_packet dp input s, ?_, ?_, ?_, ?_, ?_, ?_⟩
  · rw [stepEvents_append, packetEvents_announced]
  · rw [stepEvents_append, packetEvents_announced]
    cases input.sriChanged <;> simp
  · rw [stepEvents_append, packetEvents_announced]
    cases input.sriChanged <;> simp
  · rw [stepEvents_append, packetEvents_announced]
    cases input.sriChanged <;> simp
  · show (afterSriBlock dp input s).self.m_sriOut = _
    cases h : input.sriChanged
    · simp [afterSriBlock_unchanged dp input s h]
    · simp [afterSriBlock_changed dp input s h]
  · show (afterSriBlock dp input s).self.m_delta = _
    cases h : input.sriChanged
    · simp [afterSriBlock_unchanged dp input s h]
    · simp [afterSriBlock_changed dp input s h]

/-- C5: a step on a flagged packet performs one rebuild, destroy of the live handle if
there is one and then one `modem_create` of the BPSK scheme whose result becomes the
handle, and every `modem_modulate` call of the step comes after it, the remaining
events holding no create and no destroy; a step on an unflagged packet, from any
state, makes no create and no destroy call and keeps the handle; over the two steps
on a flagged and then an unflagged packet there is exactly one create. -/
theorem serviceFunction_rebuild (dp : Deps) (flagged unflagged : dataTransfer) (s : Sys)
    (hf : flagged.sriChanged = true) (hu : unflagged.sriChanged = false) :
    (∃ (s1 : Sys) (q : Handle) (rest : List Event),
      serviceFunction dp (some flagged) s = Except.ok (ReturnCode.NORMAL, s1) ∧
      stepEvents s s1 =
        (match s.self.bpsk_mod with
          | some old => [Event.modem_destroy old]
          | none => []) ++
        Event.modem_create dp.LIQUID_MODEM_BPSK q :: rest ∧
      s1.self.bpsk_mod = some q ∧
      creates rest = 0 ∧ destroys rest = 0 ∧
      modulateCalls rest = (loopSymbols flagged).map (fun symbol => (some q, symbol)) ∧
      modulateCalls (stepEvents s s1) = modulateCalls rest ∧
      creates (stepEvents s s1) = 1 ∧
      destroys (stepEvents s s1) = (if s.self.bpsk_mod.isSome then 1 else 0)) ∧
    (∀ t : Sys, ∃ t1 : Sys,
      serviceFunction dp (some unflagged) t = Except.ok (ReturnCode.NORMAL, t1) ∧
      creates (stepEvents t t1) = 0 ∧ destroys (stepEvents t t1) = 0 ∧
      t1.self.bpsk_mod = t.self.bpsk_mod) ∧
    (∃ s2 : Sys,
      run dp [some flagged, some unflagged] s = Except.ok s2 ∧
      creates (stepEvents s s2) = 1 ∧
      destroys (stepEvents s s2) = (if s.self.bpsk_mod.isSome then 1 else 0)) := by
  refine ⟨?_, ?_, ?_⟩
  · refine ⟨_, createdHandle dp s,
      Event.pushSRI { flagged.SRI with mode := 1 } ::
        ((loopSymbols flagged).map (Event.modem_modulate (some (createdHandle dp s))) ++
          [Event.pushPacket
            (interleave ((loopSymbols flagged).map
              (dp.modem_modulate (some (createdHandle dp s)))))
            flagged.T flagged.EOS flagged.streamID]),
      serviceFunction_packet dp flagged s, ?_, ?_, ?_, ?_, ?_, ?_, ?_, ?_⟩
    · rw [stepEvents_append]
      unfold packetEvents
      rw [afterSriBlock_handle]
      unfold rebuildEvents createdHandle
      cases s.self.bpsk_mod <;> simp [hf]
    · show (afterSriBlock dp flagged s).self.bpsk_mod = _
      rw [afterSriBlock_handle]
      simp [hf]
    · simp [creates, creates_append, creates_modulate]
    · simp [destroys, destroys_append, destroys_modulate]
    · simp [modulateCalls, modulateCalls_append, modulateCalls_modulate]
    · rw [stepEvents_append, packetEvents_modulateCalls, afterSriBlock_handle]
      simp [hf, modulateCalls, modulateCalls_append, modulateCalls_modulate]
    · rw [stepEvents_append, packetEvents_creates]
      simp [hf]
    · rw [stepEvents_append, packetEvents_destroys]
      simp [hf]
  · intro t
    refine ⟨_, serviceFunction_packet dp unflagged t, ?_, ?_, ?_⟩
    · rw [stepEvents_append, packetEvents_creates]
      simp [hu]
    · rw [stepEvents_append, packetEvents_destroys]
      simp [hu]
    · show (afterSriBlock dp unflagged t).self.bpsk_mod = _
      rw [afterSriBlock_handle]
      simp [hu]
  · refine ⟨runSys dp [some flagged, some unflagged] s, run_eq dp _ s, ?_, ?_⟩
    · simp only [runSys, stepSys, stepEvents, List.append_assoc, List.drop_left,
        creates_append, packetEvents_creates]
      simp [hf, hu]
    · simp only [runSys, stepSys, stepEvents, List.append_assoc, List.drop_left,
        destroys_append, packetEvents_destroys]
      simp [hf, hu]

/-- Witness for C5: from the fresh component, the flagged packet [0] followed by the
unflagged packet [1]. -/
theorem serviceFunction_rebuild_witness :
    ((samplePacket [0] true).sriChanged = true ∧ (samplePacket [1] false).sriChanged = false) ∧
      ∃ s2 : Sys,
        run sampleDeps [some (samplePacket [0] true), some (samplePacket [1] false)]
          (fresh sampleDeps) = Except.ok s2 ∧
        creates (stepEvents (fresh sampleDeps) s2) = 1 ∧
        destroys (stepEvents (fresh sampleDeps) s2) =
          (if (fresh sampleDeps).self.bpsk_mod.isSome then 1 else 0) :=
  ⟨⟨rfl, rfl⟩,
    (serviceFunction_rebuild sampleDeps (samplePacket [0] true) (samplePacket [1] false)
      (fresh sampleDeps) rfl rfl).2.2⟩

/-- C6: when the receive returns no packet the step returns NOOP with the component
and the trace exactly as before, so it makes no call at all; when a packet is received
the step returns NORMAL. -/
theorem serviceFunction_no_data (dp : Deps) (s : Sys) :
    serviceFunction dp none s = Except.ok (ReturnCode.NOOP, s) ∧
      stepEvents s s = [] ∧
      ∀ input : dataTransfer, ∃ s1 : Sys,
        serviceFunction dp (some input) s = Except.ok (ReturnCode.NORMAL, s1) := by
  refine ⟨rfl, by simp [stepEvents], ?_⟩
  intro input
  exact ⟨_, serviceFunction_packet dp input s⟩

/-! ## Teardown -/

/-- C9: from any state, the destructor body makes one `modem_destroy` call on the live
handle when there is one and no call otherwise, touches no other member, and leaves
`bpsk_mod` NULL; running it again makes no call and gives the same state. -/
theorem destructor_idempotent (s : Sys) :
    (destructor s).trace = s.trace ++ stepEvents s (destructor s) ∧
      stepEvents s (destructor s) =
        (match s.self.bpsk_mod with
          | some q => [Event.modem_destroy q]
          | none => []) ∧
      (destructor s).self = { s.self with bpsk_mod := none } ∧
      (destructor s).self.bpsk_mod = none ∧
      destructor (destructor s) = destructor s ∧
      stepEvents (destructor s) (destructor (destructor s)) = [] := by
  unfold destructor stepEvents
  cases h : s.self.bpsk_mod with
  | none =>
    simp only [h]
    refine ⟨by simp, by simp, ?_, trivial, trivial, by simp⟩
    cases s with
    | mk self trace =>
      cases self
      simp_all
  | some q => simp

/-! ## Runs of service steps -/

theorem creates_take_le (l : List Event) (m : Nat) : creates (l.take m) ≤ creates l := by
  have h := creates_append (l.take m) (l.drop m)
  rw [List.take_append_drop] at h
  omega

theorem destroys_take_le (l : List Event) (m : Nat) : destroys (l.take m) ≤ destroys l := by
  have h := destroys_append (l.take m) (l.drop m)
  rw [List.take_append_drop] at h
  omega

theorem packetEvents_initial_segment (dp : Deps) (input : dataTransfer) (s : Sys) (m : Nat) :
    destroys ((packetEvents dp input s).take m) ≤
        creates ((packetEvents dp input s).take m) + (if s.self.bpsk_mod.isSome then 1 else 0) ∧
      creates ((packetEvents dp input s).take m) + (if s.self.bpsk_mod.isSome then 1 else 0) ≤
        destroys ((packetEvents dp input s).take m) + 1 := by
  unfold packetEvents
  rw [List.take_append_eq_append_take, creates_append, destroys_append]
  have hc := creates_take_le
    ((loopSymbols input).map
        (Event.modem_modulate (afterSriBlock dp input s).self.bpsk_mod) ++
      [Event.pushPacket
        (interleave ((loopSymbols input).map
          (dp.modem_modulate (afterSriBlock dp input s).self.bpsk_mod)))
        input.T input.EOS input.streamID])
    (m - (if input.sriChanged then
      rebuildEvents dp s ++ [Event.pushSRI { input.SRI with mode := 1 }] else []).length)
  have hd := destroys_take_le
    ((loopSymbols input).map
        (Event.modem_modulate (afterSriBlock dp input s).self.bpsk_mod) ++
      [Event.pushPacket
        (interleave ((loopSymbols input).map
          (dp.modem_modulate (afterSriBlock dp input s).self.bpsk_mod)))
        input.T input.EOS input.streamID])
    (m - (if input.sriChanged then
      rebuildEvents dp s ++ [Event.pushSRI { input.SRI with mode := 1 }] else []).length)
  simp only [creates_append, destroys_append, creates_modulate, destroys_modulate, creates,
    destroys, Nat.le_zero, Nat.add_zero] at hc hd
  rw [hc, hd]
  cases input.sriChanged
  · cases s.self.bpsk_mod <;> simp [creates, destroys]
  · unfold rebuildEvents
    cases s.self.bpsk_mod
    · rcases m with _ | _ | m <;> simp [creates, destroys]
    · rcases m with _ | _ | _ | m <;> simp [creates, destroys]

theorem stepSys_invariant (dp : Deps) (getPacket : Option dataTransfer) (s : Sys)
    (h : HandleInvariant s) : HandleInvariant (stepSys dp getPacket s) := by
  cases getPacket with
  | none => exact h
  | some input =>
    obtain ⟨hpre, hend⟩ := h
    constructor
    · intro n
      show destroys ((s.trace ++ packetEvents dp input s).take n) ≤
          creates ((s.trace ++ packetEvents dp input s).take n) ∧
        creates ((s.trace ++ packetEvents dp input s).take n) ≤
          destroys ((s.trace ++ packetEvents dp input s).take n) + 1
      rcases Nat.le_total n s.trace.length with hn | hn
      · rw [List.take_append_of_le_length hn]
        exact hpre n
      · rw [List.take_append_eq_append_take, List.take_of_length_le hn, creates_append,
          destroys_append]
        have hp := packetEvents_initial_segment dp input s (n - s.trace.length)
        omega
    · show creates (s.trace ++ packetEvents dp input s) =
        destroys (s.trace ++ packetEvents dp input s) +
          (if (afterSriBlock dp input s).self.bpsk_mod.isSome then 1 else 0)
      rw [creates_append, destroys_append, packetEvents_creates, packetEvents_destroys,
        afterSriBlock_handle, hend]
      cases input.sriChanged <;> cases s.self.bpsk_mod <;> simp

theorem stepSys_handle (dp : Deps) (getPacket : Option dataTransfer) (s : Sys) :
    (stepSys dp getPacket s).self.bpsk_mod.isSome =
      (flaggedPacket getPacket || s.self.bpsk_mod.isSome) := by
  cases getPacket with
  | none => simp [stepSys, flaggedPacket]
  | some input =>
    show (afterSriBlock dp input s).self.bpsk_mod.isSome = _
    rw [afterSriBlock_handle]
    cases h : input.sriChanged <;> simp [flaggedPacket, h]

theorem runSys_invariant (dp : Deps) (inputs : List (Option dataTransfer)) :
    ∀ s : Sys, HandleInvariant s → HandleInvariant (runSys dp inputs s) := by
  induction inputs with
  | nil => intro s h; exact h
  | cons g rest ih => intro s h; exact ih _ (stepSys_invariant dp g s h)

theorem runSys_handle (dp : Deps) (inputs : List (Option dataTransfer)) :
    ∀ s : Sys, (runSys dp inputs s).self.bpsk_mod.isSome =
      (inputs.any flaggedPacket || s.self.bpsk_mod.isSome) := by
  induction inputs with
  | nil => intro s; simp [runSys]
  | cons g rest ih =>
    intro s
    simp only [runSys, ih, stepSys_handle, List.any_cons]
    cases flaggedPacket g <;> cases rest.any flaggedPacket <;> simp

theorem fresh_invariant (dp : Deps) : HandleInvariant (fresh dp) := by
  constructor
  · intro n
    simp [fresh, creates, destroys]
  · simp [fresh, creates, destroys, BPSK_Mod_i.BPSK_Mod_i]

/-- C10: every run of service steps from the freshly constructed component completes;
afterwards a handle is live exactly when some step received a packet with the
descriptor-changed flag set; and at every point of the trace (every prefix) the number
of `modem_create` calls is the number of `modem_destroy` calls or one more. -/
theorem run_handle_invariant (dp : Deps) (inputs : List (Option dataTransfer)) :
    ∃ s1 : Sys,
      run dp inputs (fresh dp) = Except.ok s1 ∧
      s1.self.bpsk_mod.isSome = inputs.any flaggedPacket ∧
      ∀ n : Nat,
        destroys (s1.trace.take n) ≤ creates (s1.trace.take n) ∧
        creates (s1.trace.take n) ≤ destroys (s1.trace.take n) + 1 := by
  refine ⟨runSys dp inputs (fresh dp), run_eq dp inputs _, ?_, ?_⟩
  · rw [runSys_handle]
    simp [fresh, BPSK_Mod_i.BPSK_Mod_i]
  · exact (runSys_invariant dp inputs _ (fresh_invariant dp)).1

theorem runSys_trace (dp : Deps) (inputs : List (Option dataTransfer)) :
    ∀ s : Sys, ∃ evs : List Event, (runSys dp inputs s).trace = s.trace ++ evs := by
  induction inputs with
  | nil => intro s; exact ⟨[], by simp [runSys]⟩
  | cons g rest ih =>
    intro s
    obtain ⟨evs, hevs⟩ := ih (stepSys dp g s)
    cases g with
    | none => exact ⟨evs, hevs⟩
    | some input =>
      refine ⟨packetEvents dp input s ++ evs, ?_⟩
      rw [runSys, hevs]
      simp [stepSys]

/-- Counterexample to C7 as stated: from the fresh component, one step on an empty
packet with the descriptor-changed flag unset emits a packet and the whole trace holds
no `pushSRI` call. -/
theorem first_packet_without_announcement :
    ∃ s1 : Sys,
      run sampleDeps [some (samplePacket [] false)] (fresh sampleDeps) = Except.ok s1 ∧
      s1.trace = [Event.pushPacket [] sampleTime false "s1"] ∧
      emittedBuffers s1.trace = [[]] ∧
      announced s1.trace = [] ∧
      announcedBeforeFirstPacket s1.trace = false :=
  ⟨{ self := (fresh sampleDeps).self, trace := [Event.pushPacket [] sampleTime false "s1"] },
    rfl, rfl, rfl, rfl, rfl⟩

/-- C7, amended: for every run of service steps from the freshly constructed component
whose first received packet has the descriptor-changed flag set, the run completes, a
packet is emitted, and a `pushSRI` call comes before the first `pushPacket` call. -/
theorem first_packet_announced (dp : Deps) (inputs : List (Option dataTransfer))
    (input : dataTransfer) (hfirst : firstPacket inputs = some input)
    (hflag : input.sriChanged = true) :
    ∃ s1 : Sys,
      run dp inputs (fresh dp) = Except.ok s1 ∧
      emittedBuffers s1.trace ≠ [] ∧
      announcedBeforeFirstPacket s1.trace = true := by
  refine ⟨runSys dp inputs (fresh dp), run_eq dp inputs _, ?_⟩
  induction inputs with
  | nil => simp [firstPacket] at hfirst
  | cons g rest ih =>
    cases g with
    | none => exact ih (by simpa [firstPacket] using hfirst)
    | some p =>
      have hp : p = input := by simpa [firstPacket] using hfirst
      subst hp
      obtain ⟨evs, hevs⟩ := runSys_trace dp rest (stepSys dp (some p) (fresh dp))
      rw [runSys, hevs]
      have htr : (stepSys dp (some p) (fresh dp)).trace = packetEvents dp p (fresh dp) := by
        simp [stepSys, fresh]
      rw [htr]
      constructor
      · rw [emittedBuffers_append, packetEvents_emittedBuffers]
        simp
      · unfold packetEvents rebuildEvents
        simp [hflag, fresh, BPSK_Mod_i.BPSK_Mod_i, announcedBeforeFirstPacket]

/-- Witness for the amended C7: a flagged packet [0] received after one empty receive,
followed by an unflagged packet. -/
theorem first_packet_announced_witness :
    (firstPacket [none, some (samplePacket [0] true), some (samplePacket [1] false)] =
        some (samplePacket [0] true) ∧
      (samplePacket [0] true).sriChanged = true) ∧
      ∃ s1 : Sys,
        run sampleDeps [none, some (samplePacket [0] true), some (samplePacket [1] false)]
          (fresh sampleDeps) = Except.ok s1 ∧
        emittedBuffers s1.trace ≠ [] ∧
        announcedBeforeFirstPacket s1.trace = true :=
  ⟨⟨rfl, rfl⟩,
    first_packet_announced sampleDeps
      [none, some (samplePacket [0] true), some (samplePacket [1] false)]
      (samplePacket [0] true) rfl rfl⟩

/-- C8, the code at the failing input: from the freshly constructed component, the step
on the two-symbol packet [0, 0] with the descriptor-changed flag unset calls
`modem_modulate` with the NULL handle, does not stop there, and goes on to call
`pushPacket` with the value that call left in the output. -/
theorem serviceFunction_modulates_on_null_handle (dp : Deps) :
    serviceFunction dp (some (samplePacket [0, 0] false)) (fresh dp) =
      Except.ok (ReturnCode.NORMAL,
        { self := (fresh dp).self
          trace :=
            [Event.modem_modulate none 0,
             Event.pushPacket [(dp.modem_modulate none 0).re, (dp.modem_modulate none 0).im]
               sampleTime false "s1"] }) :=
  rfl

end BPSK
